import Mathlib

/-!
Shallow embedding of the Magdee asynchronous PDF-to-audio conversion pipeline:
the KV store client (src/app/database.py), the upload / status / delete
operations of src/app/routers/pdf_router.py, the background worker
process_pdf_to_audio, and the regenerate / delete operations of
src/backend/python/app/routers/audio_router.py.

Modelling conventions:
- The flat key namespace (book:<id>, user:<uid>:books, user:<uid>:activity_log)
  is split into three maps of a Store record; keys of the three families are
  disjoint in the source, so this is a faithful refactoring.
- The Supabase engine behind the KV client can raise; database.py catches every
  such exception and converts it to None / False / [].  We model the engine by
  a schedule of fault bits (faults : List Bool), one consumed per store call in
  program order; an exhausted schedule means no further faults.
- Timestamps are naturals (a single clock value per request), uuid generation
  is a parameter (freshness becomes a hypothesis), filesystem effects that the
  routers ignore are dropped, and a possible exception while saving/reading the
  uploaded file is the ioError parameter of an upload request.
- Every successful persist of a job record is appended to a trace of
  (book id, status written), so that status-transition chains can be stated.
-/

namespace Magdee

/-- Conversion status of a job record (`conversion_status` strings in the source). -/
inductive Status where
  | pending
  | processing
  | completed
  | failed
deriving DecidableEq, Repr

/-- One entry of a per-user activity log, as built by update_user_activity
(database.py lines 187-207); heterogeneous detail values are rendered as strings. -/
structure ActivityEntry where
  type : String
  timestamp : Nat
  details : List (String × String)
  source : String
deriving DecidableEq, Repr

/-- The book metadata dictionary persisted under `book:<id>`
(pdf_router.py lines 59-77, plus the fields written later by the worker and
by the audio router). -/
structure JobRecord where
  id : String
  user_id : String
  title : String
  author : String
  file_path : String
  original_filename : String
  file_size : Nat
  conversion_status : Status
  upload_timestamp : Nat
  created_at : Nat
  updated_at : Nat
  progress : Nat
  audio_url : Option String
  duration : Option Nat
  error_message : Option String
  converted_at : Option Nat
  regeneration_requested : Bool
  meta_uploaded_from : String
  meta_user_agent : String
deriving DecidableEq, Repr

/-- Association-list lookup (the store is keyed by strings). -/
def alookup {α : Type} : List (String × α) → String → Option α
  | [], _ => none
  | (k, v) :: r, key => if k = key then some v else alookup r key

/-- Association-list upsert, mirroring the `upsert` of KVStore.set. -/
def aset {α : Type} : List (String × α) → String → α → List (String × α)
  | [], key, v => [(key, v)]
  | (k, w) :: r, key, v => if k = key then (key, v) :: r else (k, w) :: aset r key v

/-- Association-list delete, mirroring KVStore.delete. -/
def adel {α : Type} : List (String × α) → String → List (String × α)
  | [], _ => []
  | (k, w) :: r, key => if k = key then adel r key else (k, w) :: adel r key

/-- The persisted state: the three key families of the flat KV namespace. -/
structure Store where
  books : List (String × JobRecord)
  userBooks : List (String × List String)
  activityLogs : List (String × List ActivityEntry)
deriving DecidableEq, Repr

/-- World threaded through every operation: the store, the engine-fault
schedule, and the trace of successful job-record persists. -/
structure W where
  store : Store
  faults : List Bool
  trace : List (String × Status)
deriving DecidableEq, Repr

/-- Pop the next engine-fault bit; an exhausted schedule never faults. -/
def nextFault : List Bool → Bool × List Bool
  | [] => (false, [])
  | b :: r => (b, r)

/-- KVStore.get for a `book:<id>` key (database.py lines 60-68): on an engine
fault the exception is caught and None is returned. -/
def kvGetBook (w : W) (id : String) : Option JobRecord × W :=
  let p := nextFault w.faults
  (if p.1 then none else alookup w.store.books id, { w with faults := p.2 })

/-- KVStore.set for a `book:<id>` key (database.py lines 70-81): returns False
on an engine fault, True otherwise; a successful persist is recorded in the
trace together with the status it wrote. -/
def kvSetBook (w : W) (id : String) (bd : JobRecord) : Bool × W :=
  let p := nextFault w.faults
  if p.1 then (false, { w with faults := p.2 })
  else (true, { w with
                  faults := p.2
                  store := { w.store with books := aset w.store.books id bd }
                  trace := w.trace ++ [(id, bd.conversion_status)] })

/-- KVStore.delete for a `book:<id>` key (database.py lines 83-91). -/
def kvDelBook (w : W) (id : String) : Bool × W :=
  let p := nextFault w.faults
  if p.1 then (false, { w with faults := p.2 })
  else (true, { w with
                  faults := p.2
                  store := { w.store with books := adel w.store.books id } })

/-- KVStore.get for a `user:<uid>:books` key. -/
def kvGetUserBooks (w : W) (uid : String) : Option (List String) × W :=
  let p := nextFault w.faults
  (if p.1 then none else alookup w.store.userBooks uid, { w with faults := p.2 })

/-- KVStore.set for a `user:<uid>:books` key. -/
def kvSetUserBooks (w : W) (uid : String) (l : List String) : Bool × W :=
  let p := nextFault w.faults
  if p.1 then (false, { w with faults := p.2 })
  else (true, { w with
                  faults := p.2
                  store := { w.store with userBooks := aset w.store.userBooks uid l } })

/-- KVStore.get for a `user:<uid>:activity_log` key. -/
def kvGetActivity (w : W) (uid : String) : Option (List ActivityEntry) × W :=
  let p := nextFault w.faults
  (if p.1 then none else alookup w.store.activityLogs uid, { w with faults := p.2 })

/-- KVStore.set for a `user:<uid>:activity_log` key. -/
def kvSetActivity (w : W) (uid : String) (l : List ActivityEntry) : Bool × W :=
  let p := nextFault w.faults
  if p.1 then (false, { w with faults := p.2 })
  else (true, { w with
                  faults := p.2
                  store := { w.store with activityLogs := aset w.store.activityLogs uid l } })

/-- The truncation `activity_log[-100:]` applied when the log exceeds 100
entries (database.py lines 200-202). -/
def truncateLog (l : List ActivityEntry) : List ActivityEntry :=
  if l.length > 100 then l.drop (l.length - 100) else l

/-- update_user_activity (database.py lines 187-207): read the log (a caught
engine fault yields None, hence `or []`), append the new entry, keep the last
100, write back; every internal error is swallowed, the function always
returns normally. -/
def update_user_activity (w : W) (uid ty : String)
    (details : List (String × String)) (now : Nat) : W :=
  let g := kvGetActivity w uid
  let log := (g.1.getD []) ++ [⟨ty, now, details, "python_backend"⟩]
  (kvSetActivity g.2 uid (truncateLog log)).2

/-- HTTP-level error taxonomy of the routers. -/
inductive ApiError where
  | authRequired
  | forbidden
  | invalidInput (msg : String)
  | notFound
  | internal (msg : String)
deriving DecidableEq, Repr

/-- `filename.lower()`: lowercase every character (structural model of
Python str.lower for the characters appearing in filenames). -/
def strLower (s : String) : String := String.mk (s.data.map Char.toLower)

/-- `str.endswith(suffix)`. -/
def strEndsWith (s p : String) : Bool := List.isSuffixOf p.data s.data

/-- `str.replace(".pdf", "")`: drop every non-overlapping occurrence of
".pdf", scanning left to right, as Python replace does. -/
def stripPdfAux : List Char → List Char
  | [] => []
  | '.' :: 'p' :: 'd' :: 'f' :: rest => stripPdfAux rest
  | c :: rest => c :: stripPdfAux rest

/-- `filename.replace(".pdf", "")` packaged back into a string. -/
def stripPdf (s : String) : String := String.mk (stripPdfAux s.data)

/-- Inputs of one POST /upload/{user_id} request; `requester` is the
authenticated user attached by the middleware (none = no request.state.user),
`book_id` is the generated uuid, `ioError` a possible exception raised while
saving or reading the uploaded file. -/
structure UploadReq where
  user_id : String
  requester : Option String
  filename : String
  size : Nat
  title : Option String
  author : Option String
  book_id : String
  now : Nat
  client_ip : String
  user_agent : String
  ioError : Option String
deriving DecidableEq, Repr

/-- The success payload of upload_pdf. -/
structure UploadResp where
  book_id : String
  title : String
  status : String
deriving DecidableEq, Repr

/-- `title or file.filename.replace(".pdf", "")`: Python `or` falls through on
an empty string. -/
def defaultTitle (r : UploadReq) : String :=
  match r.title with
  | some t => if t = "" then stripPdf r.filename else t
  | none => stripPdf r.filename

/-- `author or "Unknown"`. -/
def defaultAuthor (r : UploadReq) : String :=
  match r.author with
  | some a => if a = "" then "Unknown" else a
  | none => "Unknown"

/-- The book metadata built at pdf_router.py lines 59-77. -/
def mkUploadRecord (r : UploadReq) : JobRecord :=
  { id := r.book_id
    user_id := r.user_id
    title := defaultTitle r
    author := defaultAuthor r
    file_path := "/tmp/uploads/" ++ r.book_id ++ "_" ++ r.filename
    original_filename := r.filename
    file_size := r.size
    conversion_status := .pending
    upload_timestamp := r.now
    created_at := r.now
    updated_at := r.now
    progress := 0
    audio_url := none
    duration := none
    error_message := none
    converted_at := none
    regeneration_requested := false
    meta_uploaded_from := r.client_ip
    meta_user_agent := r.user_agent }

/-- upload_pdf (pdf_router.py lines 17-119).  Returns the HTTP result, the new
world, and the list of book ids handed to background_tasks.add_task. -/
def upload_pdf (maxPdfSize : Nat) (w : W) (r : UploadReq) :
    Except ApiError UploadResp × W × List String :=
  match r.requester with
  | none => (.error .authRequired, w, [])
  | some q =>
    if q ≠ r.user_id then (.error .forbidden, w, [])
    else if strEndsWith (strLower r.filename) ".pdf" = false then
      (.error (.invalidInput "Only PDF files are supported"), w, [])
    else if r.size > maxPdfSize then
      (.error (.invalidInput "File too large"), w, [])
    else
      match r.ioError with
      | some e => (.error (.internal ("Upload failed: " ++ e)), w, [])
      | none =>
        let bd := mkUploadRecord r
        let w1 := (kvSetBook w r.book_id bd).2
        let g := kvGetUserBooks w1 r.user_id
        let w3 := (kvSetUserBooks g.2 r.user_id ((g.1.getD []) ++ [r.book_id])).2
        let w4 := update_user_activity w3 r.user_id "pdf_upload"
          [("book_id", r.book_id), ("filename", r.filename),
           ("file_size", toString r.size), ("title", bd.title)] r.now
        (.ok ⟨r.book_id, bd.title, "uploaded"⟩, w4, [r.book_id])

/-- The status view returned by GET /status/{book_id}
(pdf_router.py lines 121-146). -/
structure StatusView where
  book_id : String
  status : Status
  progress : Nat
  audio_url : Option String
  duration : Option Nat
  error_message : Option String
deriving DecidableEq, Repr

/-- get_processing_status (pdf_router.py lines 121-146): 404 when the record
is absent, 403 when an authenticated requester is not the owner; anonymous
reads are allowed. -/
def get_processing_status (w : W) (book_id : String) (requester : Option String) :
    Except ApiError StatusView × W :=
  let g := kvGetBook w book_id
  match g.1 with
  | none => (.error .notFound, g.2)
  | some bd =>
    match requester with
    | some q =>
      if bd.user_id ≠ q then (.error .forbidden, g.2)
      else (.ok ⟨book_id, bd.conversion_status, bd.progress,
                 bd.audio_url, bd.duration, bd.error_message⟩, g.2)
    | none => (.ok ⟨book_id, bd.conversion_status, bd.progress,
                    bd.audio_url, bd.duration, bd.error_message⟩, g.2)

/-- delete_pdf (pdf_router.py lines 148-195): auth, load, ownership; then
remove the id from the requester's book list (list.remove drops the first
occurrence), delete the record and log the deletion. -/
def delete_pdf (w : W) (book_id : String) (requester : Option String) (now : Nat) :
    Except ApiError String × W :=
  match requester with
  | none => (.error .authRequired, w)
  | some q =>
    let g := kvGetBook w book_id
    match g.1 with
    | none => (.error .notFound, g.2)
    | some bd =>
      if bd.user_id ≠ q then (.error .forbidden, g.2)
      else
        let gi := kvGetUserBooks g.2 q
        let l := gi.1.getD []
        let w2 := if book_id ∈ l then (kvSetUserBooks gi.2 q (l.erase book_id)).2 else gi.2
        let w3 := (kvDelBook w2 book_id).2
        let w4 := update_user_activity w3 q "pdf_delete"
          [("book_id", book_id), ("title", bd.title)] now
        (.ok "Book deleted successfully", w4)

/-- The simulated progress cadence of the worker (pdf_router.py line 217). -/
def progressSteps : List Nat := [10, 25, 50, 75, 90]

/-- The work phase of process_pdf_to_audio (pdf_router.py lines 216-221): one
persist per progress step on the locally mutated record.  `fail = some (k, e)`
means an exception `e` is raised after k persists of the work phase complete
(k ≥ 5 places the raise in the completion block, before the completed
persist); the result's first component is the raised exception, if any. -/
def workPhase (id : String) (now : Nat) :
    List Nat → Option (Nat × String) → JobRecord → W → Option String × JobRecord × W
  | [], some (_, e), bd, w => (some e, bd, w)
  | [], none, bd, w => (none, bd, w)
  | _ :: _, some (0, e), bd, w => (some e, bd, w)
  | p :: rest, some (Nat.succ k, e), bd, w =>
    let bd1 := { bd with progress := p, updated_at := now }
    workPhase id now rest (some (k, e)) bd1 (kvSetBook w id bd1).2
  | p :: rest, none, bd, w =>
    let bd1 := { bd with progress := p, updated_at := now }
    workPhase id now rest none bd1 (kvSetBook w id bd1).2

/-- process_pdf_to_audio (pdf_router.py lines 197-262), the background worker.
A missing record makes it return silently.  Otherwise it persists
`processing`, runs the work phase, and either persists the completed record
or — in the catch-all handler — refetches the record, persists it as failed
with the error detail, and logs a pdf_processing_error activity entry.  The
worker never raises: it always returns a world. -/
def process_pdf_to_audio (w : W) (book_id user_id : String) (now : Nat)
    (fail : Option (Nat × String)) : W :=
  let g := kvGetBook w book_id
  match g.1 with
  | none => g.2
  | some bd =>
    let bd1 := { bd with conversion_status := .processing, updated_at := now }
    let w1 := (kvSetBook g.2 book_id bd1).2
    match workPhase book_id now progressSteps fail bd1 w1 with
    | (some e, _, w2) =>
      let ge := kvGetBook w2 book_id
      let w3 :=
        match ge.1 with
        | none => ge.2
        | some b =>
          (kvSetBook ge.2 book_id
            { b with conversion_status := .failed, error_message := some e,
                     updated_at := now }).2
      update_user_activity w3 user_id "pdf_processing_error"
        [("book_id", book_id), ("error", e)] now
    | (none, bd2, w2) =>
      let bdC := { bd2 with
                     conversion_status := .completed
                     progress := 100
                     converted_at := some now
                     audio_url := some ("/api/v1/audio/stream/" ++ book_id)
                     duration := some 3600 }
      let w3 := (kvSetBook w2 book_id bdC).2
      update_user_activity w3 user_id "pdf_processed"
        [("book_id", book_id), ("title", bd2.title), ("processing_time", "simulated")] now

/-- regenerate_audio (audio_router.py lines 107-154): auth, load, ownership;
resets status to pending and progress to 0, sets the regeneration_requested
marker and updated_at, persists and logs.  It leaves audio_url, duration and
error_message untouched, and queues nothing (the re-queue is a TODO in the
source); the returned list is what it schedules. -/
def regenerate_audio (w : W) (book_id : String) (requester : Option String) (now : Nat) :
    Except ApiError (String × Status) × W × List String :=
  match requester with
  | none => (.error .authRequired, w, [])
  | some q =>
    let g := kvGetBook w book_id
    match g.1 with
    | none => (.error .notFound, g.2, [])
    | some bd =>
      if bd.user_id ≠ q then (.error .forbidden, g.2, [])
      else
        let bd1 := { bd with
                       conversion_status := .pending
                       progress := 0
                       updated_at := now
                       regeneration_requested := true }
        let w1 := (kvSetBook g.2 book_id bd1).2
        let w2 := update_user_activity w1 q "audio_regeneration"
          [("book_id", book_id), ("title", bd.title)] now
        (.ok (book_id, .pending), w2, [])

/-- delete_audio (audio_router.py lines 156-203): auth, load, ownership;
removes the audio file, clears audio_url, resets status to pending, persists
and logs.  Note it writes `pending` whatever the current status is. -/
def delete_audio (w : W) (book_id : String) (requester : Option String) (now : Nat) :
    Except ApiError String × W :=
  match requester with
  | none => (.error .authRequired, w)
  | some q =>
    let g := kvGetBook w book_id
    match g.1 with
    | none => (.error .notFound, g.2)
    | some bd =>
      if bd.user_id ≠ q then (.error .forbidden, g.2)
      else
        let bd1 := { bd with
                       audio_url := none
                       conversion_status := .pending
                       updated_at := now }
        let w1 := (kvSetBook g.2 book_id bd1).2
        let w2 := update_user_activity w1 q "audio_delete"
          [("book_id", book_id), ("title", bd.title)] now
        (.ok "Audio deleted successfully", w2)

/-- The index update of upload_pdf split into its two store accesses
(pdf_router.py lines 83-85), read side: `user_books = kv.get(key) or []`. -/
def idxRead (s : Store) (uid : String) : List String :=
  (alookup s.userBooks uid).getD []

/-- The index update of upload_pdf, write side: `user_books.append(book_id);
kv.set(key, user_books)` — the whole locally held list is written back. -/
def idxWrite (s : Store) (uid : String) (l : List String) (book_id : String) : Store :=
  { s with userBooks := aset s.userBooks uid (l ++ [book_id]) }

/-- Run a sequence of upload_pdf calls, threading the world
(each call is one Submit, serialized after the previous one). -/
def runUploads (maxPdfSize : Nat) : W → List UploadReq → W
  | w, [] => w
  | w, r :: rest => runUploads maxPdfSize (upload_pdf maxPdfSize w r).2.1 rest

/-- One step of the status order is forward when it stays put, enters
processing from pending, or leaves processing for a terminal state. -/
def forwardStep : Status → Status → Bool
  | .pending, .pending => true
  | .pending, .processing => true
  | .processing, .processing => true
  | .processing, .completed => true
  | .processing, .failed => true
  | .completed, .completed => true
  | .failed, .failed => true
  | _, _ => false

/-- A chain of persisted statuses is forward when every consecutive pair is. -/
def forwardChain : Status → List Status → Bool
  | _, [] => true
  | a, b :: r => forwardStep a b && forwardChain b r

/-- The empty world: empty store, no engine faults scheduled, empty trace. -/
def emptyW : W := ⟨⟨[], [], []⟩, [], []⟩

/-- The configured maximum artifact size, settings.max_pdf_size
(config.py line 56): 25 MB. -/
def maxPdfSizeDefault : Nat := 25 * 1024 * 1024

/-- A well-formed sample submission used by concrete scenarios. -/
def sampleReq : UploadReq :=
  ⟨"u1", some "u1", "Book.pdf", 5, some "Book", none, "b1", 7, "ip", "ua", none⟩

/-- A concrete completed job record, as the worker leaves it. -/
def completedRecord : JobRecord :=
  { mkUploadRecord sampleReq with
      conversion_status := .completed
      progress := 100
      audio_url := some "/api/v1/audio/stream/b1"
      duration := some 3600
      converted_at := some 9 }

/-- A world holding the single completed record of user u1. -/
def completedW : W := ⟨⟨[("b1", completedRecord)], [("u1", ["b1"])], []⟩, [], []⟩

theorem alookup_aset_self {α : Type} (l : List (String × α)) (k : String) (v : α) :
    alookup (aset l k v) k = some v := by
  induction l with
  | nil => simp [aset, alookup]
  | cons h r ih =>
    obtain ⟨k', v'⟩ := h
    by_cases hk : k' = k
    · simp [aset, hk, alookup]
    · simp [aset, hk, alookup, ih]

theorem alookup_aset_ne {α : Type} (l : List (String × α)) (k k' : String) (v : α)
    (h : k ≠ k') : alookup (aset l k v) k' = alookup l k' := by
  induction l with
  | nil => simp [aset, alookup, h]
  | cons p r ih =>
    obtain ⟨k₀, v₀⟩ := p
    by_cases hk : k₀ = k
    · subst hk
      simp [aset, alookup, h]
    · simp [aset, hk, alookup, ih]

theorem truncateLog_concat_getLast (l : List ActivityEntry) (e : ActivityEntry) :
    (truncateLog (l ++ [e])).getLast? = some e := by
  unfold truncateLog
  by_cases h : (l ++ [e]).length > 100
  · rw [if_pos h]
    have hle : (l ++ [e]).length - 100 ≤ l.length := by
      simp only [List.length_append, List.length_singleton]
      omega
    rw [List.drop_append_of_le_length hle, List.getLast?_append]
    simp
  · rw [if_neg h, List.getLast?_append]
    simp

/-- C6 counterexample: invoking the worker on a job id whose record is absent
does not fail with NotFound — process_pdf_to_audio returns silently (it has no
error channel at all) and leaves the world untouched. -/
theorem C6_advance_absent_counterexample :
    alookup emptyW.store.books "b1" = none ∧
    process_pdf_to_audio emptyW "b1" "u1" 9 none = emptyW := by
  constructor
  · rfl
  · rfl

/-- C6 amended: Advance on a job id whose record is absent from the store
returns silently without error and without modifying any state (the source
does `if not book_data: return` rather than raising NotFound). -/
theorem C6_advance_absent_silent (s : Store) (t : List (String × Status))
    (id uid : String) (now : Nat) (fail : Option (Nat × String))
    (h : alookup s.books id = none) :
    process_pdf_to_audio ⟨s, [], t⟩ id uid now fail = ⟨s, [], t⟩ := by
  simp [process_pdf_to_audio, kvGetBook, nextFault, h]

/-- Witness for C6 amended at a concrete input. -/
theorem C6_advance_absent_silent_witness :
    process_pdf_to_audio ⟨⟨[], [], []⟩, [], []⟩ "j9" "u9" 3 (some (1, "x")) =
      ⟨⟨[], [], []⟩, [], []⟩ :=
  C6_advance_absent_silent ⟨[], [], []⟩ [] "j9" "u9" 3 (some (1, "x")) rfl

/-- C8: a submission whose size is exactly the configured maximum passes the
size check and Submit succeeds; one byte over fails with InvalidInput and the
world — in particular the job-record map — is left exactly as it was, so no
Job Record is created. -/
theorem C8_size_boundary (maxS : Nat) (s : Store) (f : List Bool)
    (t : List (String × Status)) (r : UploadReq)
    (hreq : r.requester = some r.user_id)
    (hpdf : strEndsWith (strLower r.filename) ".pdf" = true)
    (hio : r.ioError = none) :
    (upload_pdf maxS ⟨s, f, t⟩ { r with size := maxS }).1 =
      .ok ⟨r.book_id, defaultTitle r, "uploaded"⟩ ∧
    upload_pdf maxS ⟨s, f, t⟩ { r with size := maxS + 1 } =
      (.error (.invalidInput "File too large"), ⟨s, f, t⟩, []) := by
  constructor
  · simp [upload_pdf, hreq, hpdf, hio, defaultTitle, mkUploadRecord]
  · simp [upload_pdf, hreq, hpdf, hio]

/-- Witness for C8 at a concrete input. -/
theorem C8_size_boundary_witness :
    (upload_pdf maxPdfSizeDefault emptyW { sampleReq with size := maxPdfSizeDefault }).1 =
      .ok ⟨"b1", "Book", "uploaded"⟩ ∧
    upload_pdf maxPdfSizeDefault emptyW { sampleReq with size := maxPdfSizeDefault + 1 } =
      (.error (.invalidInput "File too large"), emptyW, []) :=
  C8_size_boundary maxPdfSizeDefault ⟨[], [], []⟩ [] [] sampleReq rfl (by decide) rfl

/-- C3: immediately after a valid Submit returns, the created Job Record is
stored with status pending and progress 0, and the fresh job id appears
exactly once in the owner's User Job Index. -/
theorem C3_submit_pending_indexed (maxS : Nat) (s : Store)
    (t : List (String × Status)) (r : UploadReq)
    (hreq : r.requester = some r.user_id)
    (hpdf : strEndsWith (strLower r.filename) ".pdf" = true)
    (hsize : r.size ≤ maxS)
    (hio : r.ioError = none)
    (hfresh : r.book_id ∉ idxRead s r.user_id) :
    (upload_pdf maxS ⟨s, [], t⟩ r).1 = .ok ⟨r.book_id, defaultTitle r, "uploaded"⟩ ∧
    alookup (upload_pdf maxS ⟨s, [], t⟩ r).2.1.store.books r.book_id =
      some (mkUploadRecord r) ∧
    (mkUploadRecord r).conversion_status = .pending ∧
    (mkUploadRecord r).progress = 0 ∧
    (idxRead (upload_pdf maxS ⟨s, [], t⟩ r).2.1.store r.user_id).count r.book_id = 1 := by
  have hns : ¬ (r.size > maxS) := Nat.not_lt.mpr hsize
  simp only [idxRead] at hfresh
  refine ⟨?_, ?_, rfl, rfl, ?_⟩
  · simp [upload_pdf, hreq, hpdf, hio, hns, defaultTitle, mkUploadRecord]
  · simp [upload_pdf, hreq, hpdf, hio, hns, kvSetBook, kvGetUserBooks,
      kvSetUserBooks, update_user_activity, kvGetActivity, kvSetActivity,
      nextFault, alookup_aset_self]
  · simp [upload_pdf, hreq, hpdf, hio, hns, kvSetBook, kvGetUserBooks,
      kvSetUserBooks, update_user_activity, kvGetActivity, kvSetActivity,
      nextFault, idxRead, alookup_aset_self, List.count_append]
    simp [List.count_eq_zero.mpr hfresh]

theorem kvGetUserBooks_store (w : W) (uid : String) :
    (kvGetUserBooks w uid).2.store = w.store := rfl

theorem kvGetActivity_store (w : W) (uid : String) :
    (kvGetActivity w uid).2.store = w.store := rfl

theorem kvSetUserBooks_books (w : W) (uid : String) (l : List String) :
    (kvSetUserBooks w uid l).2.store.books = w.store.books := by
  simp only [kvSetUserBooks]
  split <;> rfl

theorem kvSetActivity_books (w : W) (uid : String) (l : List ActivityEntry) :
    (kvSetActivity w uid l).2.store.books = w.store.books := by
  simp only [kvSetActivity]
  split <;> rfl

theorem kvSetActivity_userBooks (w : W) (uid : String) (l : List ActivityEntry) :
    (kvSetActivity w uid l).2.store.userBooks = w.store.userBooks := by
  simp only [kvSetActivity]
  split <;> rfl

theorem update_user_activity_books (w : W) (uid ty : String)
    (d : List (String × String)) (now : Nat) :
    (update_user_activity w uid ty d now).store.books = w.store.books := by
  unfold update_user_activity
  rw [kvSetActivity_books, kvGetActivity_store]

theorem update_user_activity_userBooks (w : W) (uid ty : String)
    (d : List (String × String)) (now : Nat) :
    (update_user_activity w uid ty d now).store.userBooks = w.store.userBooks := by
  unfold update_user_activity
  rw [kvSetActivity_userBooks, kvGetActivity_store]

/-- C9 counterexample: a Submit whose artifact is zero bytes does not fail
with InvalidInput — it succeeds and a Job Record is persisted (the source
validates only the filename extension and the maximum size). -/
theorem C9_zero_byte_counterexample :
    (upload_pdf maxPdfSizeDefault emptyW { sampleReq with size := 0 }).1 =
      .ok ⟨"b1", "Book", "uploaded"⟩ ∧
    alookup (upload_pdf maxPdfSizeDefault emptyW
        { sampleReq with size := 0 }).2.1.store.books "b1" =
      some (mkUploadRecord { sampleReq with size := 0 }) := by
  constructor
  · rfl
  · rfl

/-- C9 amended: Submit validates only the media type (filename extension) and
the maximum size, so a zero-byte artifact is accepted and creates a pending
Job Record; a submission rejected by validation (non-PDF filename) fails with
InvalidInput and creates no state, and an unreadable artifact fails with an
internal error (HTTP 500), also creating no state. -/
theorem C9_submit_validation_amended (maxS : Nat) (s : Store) (f : List Bool)
    (t : List (String × Status)) (r : UploadReq) (e : String)
    (hreq : r.requester = some r.user_id) :
    (strEndsWith (strLower r.filename) ".pdf" = true → r.ioError = none →
      (upload_pdf maxS ⟨s, [], t⟩ { r with size := 0 }).1 =
        .ok ⟨r.book_id, defaultTitle r, "uploaded"⟩ ∧
      alookup (upload_pdf maxS ⟨s, [], t⟩ { r with size := 0 }).2.1.store.books r.book_id =
        some (mkUploadRecord { r with size := 0 }) ∧
      (mkUploadRecord { r with size := 0 }).conversion_status = .pending) ∧
    (strEndsWith (strLower r.filename) ".pdf" = false →
      upload_pdf maxS ⟨s, f, t⟩ r =
        (.error (.invalidInput "Only PDF files are supported"), ⟨s, f, t⟩, [])) ∧
    (strEndsWith (strLower r.filename) ".pdf" = true → r.size ≤ maxS →
      r.ioError = some e →
      upload_pdf maxS ⟨s, f, t⟩ r =
        (.error (.internal ("Upload failed: " ++ e)), ⟨s, f, t⟩, [])) := by
  refine ⟨?_, ?_, ?_⟩
  · intro hpdf hio
    refine ⟨?_, ?_, rfl⟩
    · simp [upload_pdf, hreq, hpdf, hio, defaultTitle, mkUploadRecord]
    · simp [upload_pdf, hreq, hpdf, hio, kvSetBook, kvGetUserBooks,
        kvSetUserBooks, update_user_activity, kvGetActivity, kvSetActivity,
        nextFault, alookup_aset_self]
  · intro hpdf
    simp [upload_pdf, hreq, hpdf]
  · intro hpdf hsize hio
    simp [upload_pdf, hreq, hpdf, hio, Nat.not_lt.mpr hsize]

/-- Witness for C9 amended at a concrete input. -/
theorem C9_submit_validation_amended_witness :
    upload_pdf maxPdfSizeDefault emptyW { sampleReq with filename := "Book.txt" } =
      (.error (.invalidInput "Only PDF files are supported"), emptyW, []) :=
  (C9_submit_validation_amended maxPdfSizeDefault ⟨[], [], []⟩ [] []
    { sampleReq with filename := "Book.txt" } "x" rfl).2.1 (by decide)

/-- C5 counterexample: with the very first store set (the Job Record persist)
failing, Submit still returns success — the failed set is silently treated as
success by the invoking layer, and no record is in the store. -/
theorem C5_set_failure_counterexample :
    (upload_pdf maxPdfSizeDefault ⟨⟨[], [], []⟩, [true], []⟩ sampleReq).1 =
      .ok ⟨"b1", "Book", "uploaded"⟩ ∧
    alookup (upload_pdf maxPdfSizeDefault
        ⟨⟨[], [], []⟩, [true], []⟩ sampleReq).2.1.store.books "b1" = none := by
  constructor
  · rfl
  · rfl

/-- C5 amended: the KV client itself reports a failed set (KVStore.set
returns False and leaves the store unchanged; it returns True on success),
but the pipeline layer that invokes it discards that result: Submit still
reports success, and no state-transition failure surfaces to the caller,
even though the Job Record was never persisted. -/
theorem C5_set_failure_amended (s : Store) (fs : List Bool)
    (t : List (String × Status)) (id : String) (bd : JobRecord)
    (maxS : Nat) (r : UploadReq)
    (hreq : r.requester = some r.user_id)
    (hpdf : strEndsWith (strLower r.filename) ".pdf" = true)
    (hsize : r.size ≤ maxS)
    (hio : r.ioError = none) :
    (kvSetBook ⟨s, true :: fs, t⟩ id bd).1 = false ∧
    (kvSetBook ⟨s, true :: fs, t⟩ id bd).2.store = s ∧
    (kvSetBook ⟨s, false :: fs, t⟩ id bd).1 = true ∧
    (upload_pdf maxS ⟨s, true :: fs, t⟩ r).1 =
      .ok ⟨r.book_id, defaultTitle r, "uploaded"⟩ ∧
    (upload_pdf maxS ⟨s, true :: fs, t⟩ r).2.1.store.books = s.books := by
  refine ⟨rfl, rfl, rfl, ?_, ?_⟩
  · simp [upload_pdf, hreq, hpdf, hio, Nat.not_lt.mpr hsize, defaultTitle,
      mkUploadRecord]
  · simp [upload_pdf, hreq, hpdf, hio, Nat.not_lt.mpr hsize,
      update_user_activity_books, kvSetUserBooks_books, kvGetUserBooks_store,
      kvSetBook, nextFault]

/-- Witness for C5 amended at a concrete input. -/
theorem C5_set_failure_amended_witness :
    (kvSetBook ⟨⟨[], [], []⟩, [true], []⟩ "b1" (mkUploadRecord sampleReq)).1 = false ∧
    (kvSetBook ⟨⟨[], [], []⟩, [true], []⟩ "b1" (mkUploadRecord sampleReq)).2.store =
      (⟨[], [], []⟩ : Store) ∧
    (kvSetBook ⟨⟨[], [], []⟩, [false], []⟩ "b1" (mkUploadRecord sampleReq)).1 = true ∧
    (upload_pdf maxPdfSizeDefault ⟨⟨[], [], []⟩, [true], []⟩ sampleReq).1 =
      .ok ⟨"b1", "Book", "uploaded"⟩ ∧
    (upload_pdf maxPdfSizeDefault
        ⟨⟨[], [], []⟩, [true], []⟩ sampleReq).2.1.store.books = [] :=
  C5_set_failure_amended ⟨[], [], []⟩ [] [] "b1" (mkUploadRecord sampleReq)
    maxPdfSizeDefault sampleReq rfl (by decide) (by decide) rfl

/-- Witness for C3 at a concrete input. -/
theorem C3_submit_pending_indexed_witness :
    (upload_pdf maxPdfSizeDefault emptyW sampleReq).1 =
      .ok ⟨"b1", "Book", "uploaded"⟩ ∧
    alookup (upload_pdf maxPdfSizeDefault emptyW sampleReq).2.1.store.books "b1" =
      some (mkUploadRecord sampleReq) ∧
    (mkUploadRecord sampleReq).conversion_status = .pending ∧
    (mkUploadRecord sampleReq).progress = 0 ∧
    (idxRead (upload_pdf maxPdfSizeDefault emptyW sampleReq).2.1.store "u1").count "b1" = 1 :=
  C3_submit_pending_indexed maxPdfSizeDefault ⟨[], [], []⟩ [] sampleReq rfl
    (by decide) (by decide) rfl (by decide)

theorem kvSetBook_logs (w : W) (id : String) (bd : JobRecord) :
    (kvSetBook w id bd).2.store.activityLogs = w.store.activityLogs := by
  simp only [kvSetBook]
  split <;> rfl

theorem kvSetBook_userBooks (w : W) (id : String) (bd : JobRecord) :
    (kvSetBook w id bd).2.store.userBooks = w.store.userBooks := by
  simp only [kvSetBook]
  split <;> rfl

theorem kvSetBook_faults_nil (w : W) (id : String) (bd : JobRecord)
    (hf : w.faults = []) : (kvSetBook w id bd).2.faults = [] := by
  obtain ⟨s, f, t⟩ := w
  subst hf
  rfl

theorem kvSetBook_lookup (w : W) (id : String) (bd : JobRecord) (x : JobRecord)
    (hx : alookup w.store.books id = some x) :
    ∃ y, alookup (kvSetBook w id bd).2.store.books id = some y := by
  simp only [kvSetBook]
  split
  · exact ⟨x, hx⟩
  · exact ⟨bd, alookup_aset_self _ _ _⟩

theorem workPhase_raises (id : String) (now : Nat) (steps : List Nat) (n : Nat)
    (e : String) (bd : JobRecord) (w : W) :
    (workPhase id now steps (some (n, e)) bd w).1 = some e := by
  induction steps generalizing n bd w with
  | nil => rfl
  | cons p rest ih =>
    cases n with
    | zero => rfl
    | succ k => exact ih k _ _

theorem workPhase_books_lookup (id : String) (now : Nat) (steps : List Nat)
    (fail : Option (Nat × String)) (bd : JobRecord) (w : W) (x : JobRecord)
    (hx : alookup w.store.books id = some x) :
    ∃ y, alookup (workPhase id now steps fail bd w).2.2.store.books id = some y := by
  induction steps generalizing fail bd w x with
  | nil =>
    match fail with
    | none => exact ⟨x, hx⟩
    | some (n, e) => exact ⟨x, hx⟩
  | cons p rest ih =>
    match fail with
    | none =>
      obtain ⟨y, hy⟩ := kvSetBook_lookup w id
        { bd with progress := p, updated_at := now } x hx
      exact ih none _ _ y hy
    | some (0, e) => exact ⟨x, hx⟩
    | some (Nat.succ k, e) =>
      obtain ⟨y, hy⟩ := kvSetBook_lookup w id
        { bd with progress := p, updated_at := now } x hx
      exact ih (some (k, e)) _ _ y hy

theorem workPhase_faults_nil (id : String) (now : Nat) (steps : List Nat)
    (fail : Option (Nat × String)) (bd : JobRecord) (w : W) (hf : w.faults = []) :
    (workPhase id now steps fail bd w).2.2.faults = [] := by
  induction steps generalizing fail bd w with
  | nil =>
    match fail with
    | none => exact hf
    | some (n, e) => exact hf
  | cons p rest ih =>
    match fail with
    | none => exact ih none _ _ (kvSetBook_faults_nil _ _ _ hf)
    | some (0, e) => exact hf
    | some (Nat.succ k, e) => exact ih (some (k, e)) _ _ (kvSetBook_faults_nil _ _ _ hf)

theorem workPhase_logs (id : String) (now : Nat) (steps : List Nat)
    (fail : Option (Nat × String)) (bd : JobRecord) (w : W) :
    (workPhase id now steps fail bd w).2.2.store.activityLogs =
      w.store.activityLogs := by
  induction steps generalizing fail bd w with
  | nil =>
    match fail with
    | none => rfl
    | some (n, e) => rfl
  | cons p rest ih =>
    match fail with
    | none => exact (ih none _ _).trans (kvSetBook_logs _ _ _)
    | some (0, e) => rfl
    | some (Nat.succ k, e) => exact (ih (some (k, e)) _ _).trans (kvSetBook_logs _ _ _)



/-- C2: if an error is raised during the Advance work phase (after the
transition to processing, before the final persist), the worker catches it
and leaves the record with status failed and the error detail recorded, and
the owner's activity log ends with a pdf_processing_error entry; the worker
never lets the fault escape (it is a total function here).  Stated for a
healthy store, since engine faults are caught inside the KV client and are
never raised. -/
theorem C2_worker_failure_terminal (s : Store) (t : List (String × Status))
    (id uid : String) (now : Nat) (n : Nat) (e : String) (bd : JobRecord)
    (hb : alookup s.books id = some bd) :
    ((alookup (process_pdf_to_audio ⟨s, [], t⟩ id uid now (some (n, e))).store.books id).map
        (fun b => (b.conversion_status, b.error_message)) = some (.failed, some e)) ∧
    ((alookup (process_pdf_to_audio ⟨s, [], t⟩ id uid now
        (some (n, e))).store.activityLogs uid).getD []).getLast? =
      some ⟨"pdf_processing_error", now, [("book_id", id), ("error", e)], "python_backend"⟩ := by
  have h0 : kvGetBook ⟨s, [], t⟩ id = (some bd, ⟨s, [], t⟩) := by
    simp [kvGetBook, nextFault, hb]
  simp only [process_pdf_to_audio, h0]
  split
  case _ e' snd w2 heq =>
    have hr := workPhase_raises id now progressSteps n e
      { bd with conversion_status := Status.processing, updated_at := now }
      ((kvSetBook ⟨s, [], t⟩ id
        { bd with conversion_status := Status.processing, updated_at := now }).2)
    rw [heq] at hr
    simp at hr
    subst hr
    have hfx : alookup ((kvSetBook (⟨s, [], t⟩ : W) id
        { bd with conversion_status := Status.processing, updated_at := now }).2).store.books id =
        some { bd with conversion_status := Status.processing, updated_at := now } := by
      simp [kvSetBook, nextFault, alookup_aset_self]
    have hl := workPhase_books_lookup id now progressSteps (some (n, e'))
      { bd with conversion_status := Status.processing, updated_at := now } _ _ hfx
    rw [heq] at hl
    obtain ⟨y, hy⟩ := hl
    have hf2 : w2.faults = [] := by
      have := workPhase_faults_nil id now progressSteps (some (n, e'))
        { bd with conversion_status := Status.processing, updated_at := now }
        ((kvSetBook (⟨s, [], t⟩ : W) id
          { bd with conversion_status := Status.processing, updated_at := now }).2) rfl
      rw [heq] at this
      exact this
    constructor
    · simp [kvGetBook, kvSetBook, nextFault, hf2, hy, alookup_aset_self,
        update_user_activity, kvGetActivity, kvSetActivity]
    · simp [kvGetBook, kvSetBook, nextFault, hf2, hy, alookup_aset_self,
        update_user_activity, kvGetActivity, kvSetActivity,
        truncateLog_concat_getLast]
  case _ bd2 w2 heq =>
    have hr := workPhase_raises id now progressSteps n e
      { bd with conversion_status := Status.processing, updated_at := now }
      ((kvSetBook ⟨s, [], t⟩ id
        { bd with conversion_status := Status.processing, updated_at := now }).2)
    rw [heq] at hr
    simp at hr

theorem kvGetBook_trace (w : W) (id : String) :
    (kvGetBook w id).2.trace = w.trace := rfl

theorem kvSetActivity_trace (w : W) (uid : String) (l : List ActivityEntry) :
    (kvSetActivity w uid l).2.trace = w.trace := by
  simp only [kvSetActivity]
  split <;> rfl

theorem update_user_activity_trace (w : W) (uid ty : String)
    (d : List (String × String)) (now : Nat) :
    (update_user_activity w uid ty d now).trace = w.trace := by
  unfold update_user_activity
  rw [kvSetActivity_trace]
  rfl

theorem kvSetBook_trace_cases (w : W) (id : String) (bd : JobRecord) :
    (kvSetBook w id bd).2.trace = w.trace ∨
    (kvSetBook w id bd).2.trace = w.trace ++ [(id, bd.conversion_status)] := by
  simp only [kvSetBook]
  split
  · exact Or.inl rfl
  · exact Or.inr rfl

theorem kvSetBook_nil_trace (w : W) (id : String) (bd : JobRecord)
    (hf : w.faults = []) :
    (kvSetBook w id bd).2.trace = w.trace ++ [(id, bd.conversion_status)] := by
  obtain ⟨s, f, t⟩ := w
  subst hf
  rfl

theorem workPhase_trace (id : String) (now : Nat) (steps : List Nat)
    (fail : Option (Nat × String)) (bd : JobRecord) (w : W)
    (hst : bd.conversion_status = .processing) :
    ∃ k, (workPhase id now steps fail bd w).2.2.trace =
      w.trace ++ List.replicate k (id, Status.processing) := by
  induction steps generalizing fail bd w with
  | nil =>
    match fail with
    | none => exact ⟨0, by simp [workPhase]⟩
    | some (n, e) => exact ⟨0, by simp [workPhase]⟩
  | cons p rest ih =>
    match fail with
    | some (0, e) => exact ⟨0, by simp [workPhase]⟩
    | none =>
      obtain ⟨k, hk⟩ := ih none { bd with progress := p, updated_at := now }
        ((kvSetBook w id { bd with progress := p, updated_at := now }).2)
        (by simpa using hst)
      rcases kvSetBook_trace_cases w id { bd with progress := p, updated_at := now } with hc | hc
      · exact ⟨k, by rw [show (workPhase id now (p :: rest) none bd w) =
          workPhase id now rest none { bd with progress := p, updated_at := now }
            ((kvSetBook w id { bd with progress := p, updated_at := now }).2) from rfl,
          hk, hc]⟩
      · refine ⟨k + 1, ?_⟩
        rw [show (workPhase id now (p :: rest) none bd w) =
          workPhase id now rest none { bd with progress := p, updated_at := now }
            ((kvSetBook w id { bd with progress := p, updated_at := now }).2) from rfl,
          hk, hc]
        have hbd : ({ bd with progress := p, updated_at := now } : JobRecord).conversion_status =
            Status.processing := by simpa using hst
        rw [hbd]
        simp [List.replicate_succ, List.append_assoc]
    | some (Nat.succ m, e) =>
      obtain ⟨k, hk⟩ := ih (some (m, e)) { bd with progress := p, updated_at := now }
        ((kvSetBook w id { bd with progress := p, updated_at := now }).2)
        (by simpa using hst)
      rcases kvSetBook_trace_cases w id { bd with progress := p, updated_at := now } with hc | hc
      · exact ⟨k, by rw [show (workPhase id now (p :: rest) (some (Nat.succ m, e)) bd w) =
          workPhase id now rest (some (m, e)) { bd with progress := p, updated_at := now }
            ((kvSetBook w id { bd with progress := p, updated_at := now }).2) from rfl,
          hk, hc]⟩
      · refine ⟨k + 1, ?_⟩
        rw [show (workPhase id now (p :: rest) (some (Nat.succ m, e)) bd w) =
          workPhase id now rest (some (m, e)) { bd with progress := p, updated_at := now }
            ((kvSetBook w id { bd with progress := p, updated_at := now }).2) from rfl,
          hk, hc]
        have hbd : ({ bd with progress := p, updated_at := now } : JobRecord).conversion_status =
            Status.processing := by simpa using hst
        rw [hbd]
        simp [List.replicate_succ, List.append_assoc]

theorem forwardChain_processing_run (k : Nat) (last : Status)
    (h : forwardStep .processing last = true) :
    forwardChain .pending
      (Status.processing :: (List.replicate k Status.processing ++ [last])) = true := by
  induction k with
  | zero =>
    show (forwardStep .pending .processing &&
      (forwardStep .processing last && forwardChain last [])) = true
    rw [h]
    rfl
  | succ m ih =>
    rw [show forwardChain .pending
        (Status.processing :: (List.replicate m Status.processing ++ [last])) =
      (forwardStep .pending .processing &&
        forwardChain .processing (List.replicate m Status.processing ++ [last]))
      from rfl] at ih
    simp only [Bool.and_eq_true] at ih
    rw [List.replicate_succ]
    show (forwardStep .pending .processing &&
      (forwardStep .processing .processing &&
        forwardChain .processing (List.replicate m Status.processing ++ [last]))) = true
    rw [ih.2]
    rfl

/-- C1 amended: a job created by Submit starts pending, and a worker Advance
run on a record whose stored status is pending persists statuses only forward
along pending → processing → {completed, failed} (the persisted-status trace
is a forward chain); Regenerate moves a record back to pending — but it is
not the only such operation: the audio-delete operation also resets any
record, including a terminal one, to pending. -/
theorem C1_status_forward_amended :
    (∀ (s : Store) (id uid : String) (now : Nat) (fail : Option (Nat × String))
       (bd : JobRecord),
       alookup s.books id = some bd → bd.conversion_status = .pending →
       forwardChain bd.conversion_status
         ((process_pdf_to_audio ⟨s, [], []⟩ id uid now fail).trace.map Prod.snd) = true) ∧
    (∀ (s : Store) (t : List (String × Status)) (id q : String) (now : Nat)
       (bd : JobRecord),
       alookup s.books id = some bd → bd.user_id = q →
       (alookup (regenerate_audio ⟨s, [], t⟩ id (some q) now).2.1.store.books id).map
         (fun b => b.conversion_status) = some .pending) ∧
    (∀ (s : Store) (t : List (String × Status)) (id q : String) (now : Nat)
       (bd : JobRecord),
       alookup s.books id = some bd → bd.user_id = q →
       (alookup (delete_audio ⟨s, [], t⟩ id (some q) now).2.store.books id).map
         (fun b => b.conversion_status) = some .pending) := by
  refine ⟨?_, ?_, ?_⟩
  · intro s id uid now fail bd hb hpend
    rw [hpend]
    have h0 : kvGetBook ⟨s, [], []⟩ id = (some bd, ⟨s, [], []⟩) := by
      simp [kvGetBook, nextFault, hb]
    simp only [process_pdf_to_audio, h0]
    split
    case _ e' snd w2 heq =>
      have hf2 : w2.faults = [] := by
        have h := workPhase_faults_nil id now progressSteps fail
          { bd with conversion_status := Status.processing, updated_at := now }
          ((kvSetBook (⟨s, [], []⟩ : W) id
            { bd with conversion_status := Status.processing, updated_at := now }).2) rfl
        rw [heq] at h
        exact h
      have hfx : alookup ((kvSetBook (⟨s, [], []⟩ : W) id
          { bd with conversion_status := Status.processing, updated_at := now }).2).store.books id =
          some { bd with conversion_status := Status.processing, updated_at := now } := by
        simp [kvSetBook, nextFault, alookup_aset_self]
      have hl := workPhase_books_lookup id now progressSteps fail
        { bd with conversion_status := Status.processing, updated_at := now } _ _ hfx
      rw [heq] at hl
      obtain ⟨y, hy⟩ := hl
      have htr := workPhase_trace id now progressSteps fail
        { bd with conversion_status := Status.processing, updated_at := now }
        ((kvSetBook (⟨s, [], []⟩ : W) id
          { bd with conversion_status := Status.processing, updated_at := now }).2) rfl
      rw [heq] at htr
      obtain ⟨k, hk⟩ := htr
      have hbase : ((kvSetBook (⟨s, [], []⟩ : W) id
          { bd with conversion_status := Status.processing, updated_at := now }).2).trace =
          [(id, Status.processing)] := rfl
      rw [hbase] at hk
      have hget : kvGetBook w2 id = (some y, { w2 with faults := [] }) := by
        simp [kvGetBook, nextFault, hf2, hy]
      rw [update_user_activity_trace, hget]
      have htr2 : (kvSetBook ({ w2 with faults := [] } : W) id
          { y with conversion_status := Status.failed, error_message := some e',
                   updated_at := now }).2.trace =
          w2.trace ++ [(id, Status.failed)] := by
        rw [kvSetBook_nil_trace _ _ _ rfl]
      rw [show (match (some y, { w2 with faults := [] }).1 with
            | none => (some y, { w2 with faults := ([] : List Bool) }).2
            | some b =>
              (kvSetBook (some y, { w2 with faults := ([] : List Bool) }).2 id
                { b with conversion_status := Status.failed, error_message := some e',
                         updated_at := now }).2) =
          (kvSetBook ({ w2 with faults := [] } : W) id
            { y with conversion_status := Status.failed, error_message := some e',
                     updated_at := now }).2 from rfl]
      rw [htr2, hk]
      simp only [List.map_append, List.map_cons, List.map_nil, List.map_replicate,
        List.cons_append, List.nil_append, List.append_assoc]
      exact forwardChain_processing_run k .failed rfl
    case _ bd2 w2 heq =>
      have hf2 : w2.faults = [] := by
        have h := workPhase_faults_nil id now progressSteps fail
          { bd with conversion_status := Status.processing, updated_at := now }
          ((kvSetBook (⟨s, [], []⟩ : W) id
            { bd with conversion_status := Status.processing, updated_at := now }).2) rfl
        rw [heq] at h
        exact h
      have htr := workPhase_trace id now progressSteps fail
        { bd with conversion_status := Status.processing, updated_at := now }
        ((kvSetBook (⟨s, [], []⟩ : W) id
          { bd with conversion_status := Status.processing, updated_at := now }).2) rfl
      rw [heq] at htr
      obtain ⟨k, hk⟩ := htr
      have hbase : ((kvSetBook (⟨s, [], []⟩ : W) id
          { bd with conversion_status := Status.processing, updated_at := now }).2).trace =
          [(id, Status.processing)] := rfl
      rw [hbase] at hk
      have htr2 : (kvSetBook w2 id
          { bd2 with conversion_status := Status.completed, progress := 100,
                     converted_at := some now,
                     audio_url := some ("/api/v1/audio/stream/" ++ id),
                     duration := some 3600 }).2.trace =
          w2.trace ++ [(id, Status.completed)] := by
        rw [kvSetBook_nil_trace _ _ _ hf2]
      rw [update_user_activity_trace, htr2, hk]
      simp only [List.map_append, List.map_cons, List.map_nil, List.map_replicate,
        List.cons_append, List.nil_append, List.append_assoc]
      exact forwardChain_processing_run k .completed rfl
  · intro s t id q now bd hb hq
    simp [regenerate_audio, kvGetBook, nextFault, hb, hq, kvSetBook, kvSetActivity,
      update_user_activity, kvGetActivity, alookup_aset_self]
  · intro s t id q now bd hb hq
    simp [delete_audio, kvGetBook, nextFault, hb, hq, kvSetBook, kvSetActivity,
      update_user_activity, kvGetActivity, alookup_aset_self]

/-- C4 amended: Regenerate fails with Forbidden when the requester is not
the owner; otherwise it resets status to pending and progress to 0, sets the
regeneration_requested marker and updated_at, persists the record exactly so
— leaving the output artifact reference, duration and error detail fields
untouched — and re-schedules nothing (the re-queue is a TODO in the source);
it is also not the only terminal-to-pending transition, since audio-delete
resets the record to pending as well. -/
theorem C4_regenerate_amended (s : Store) (t : List (String × Status)) (id q : String)
    (now : Nat) (bd : JobRecord) (hb : alookup s.books id = some bd) :
    (bd.user_id ≠ q → (regenerate_audio ⟨s, [], t⟩ id (some q) now).1 = .error .forbidden) ∧
    (bd.user_id = q →
      (regenerate_audio ⟨s, [], t⟩ id (some q) now).1 = .ok (id, .pending) ∧
      alookup (regenerate_audio ⟨s, [], t⟩ id (some q) now).2.1.store.books id =
        some { bd with
                 conversion_status := .pending
                 progress := 0
                 updated_at := now
                 regeneration_requested := true } ∧
      (regenerate_audio ⟨s, [], t⟩ id (some q) now).2.2 = [] ∧
      (alookup (delete_audio ⟨s, [], t⟩ id (some q) now).2.store.books id).map
        (fun b => b.conversion_status) = some .pending) := by
  constructor
  · intro hq
    simp [regenerate_audio, kvGetBook, nextFault, hb, hq]
  · intro hq
    refine ⟨?_, ?_, ?_, ?_⟩
    · simp [regenerate_audio, kvGetBook, nextFault, hb, hq]
    · simp [regenerate_audio, kvGetBook, nextFault, hb, hq, kvSetBook,
        update_user_activity, kvGetActivity, kvSetActivity, alookup_aset_self]
    · simp [regenerate_audio, kvGetBook, nextFault, hb, hq]
    · simp [delete_audio, kvGetBook, nextFault, hb, hq, kvSetBook,
        update_user_activity, kvGetActivity, kvSetActivity, alookup_aset_self]

theorem upload_pdf_serial_step (maxS : Nat) (s : Store) (t : List (String × Status))
    (r : UploadReq) (hreq : r.requester = some r.user_id)
    (hpdf : strEndsWith (strLower r.filename) ".pdf" = true)
    (hsize : r.size ≤ maxS) (hio : r.ioError = none) :
    idxRead (upload_pdf maxS ⟨s, [], t⟩ r).2.1.store r.user_id =
      idxRead s r.user_id ++ [r.book_id] ∧
    (upload_pdf maxS ⟨s, [], t⟩ r).2.1.faults = [] := by
  constructor
  · simp [upload_pdf, hreq, hpdf, hio, Nat.not_lt.mpr hsize, idxRead, kvSetBook,
      kvGetUserBooks, kvSetUserBooks, update_user_activity, kvGetActivity,
      kvSetActivity, nextFault, alookup_aset_self]
  · simp [upload_pdf, hreq, hpdf, hio, Nat.not_lt.mpr hsize, kvSetBook,
      kvGetUserBooks, kvSetUserBooks, update_user_activity, kvGetActivity,
      kvSetActivity, nextFault]

theorem runUploads_mem (maxS : Nat) (uid b : String) :
    ∀ (reqs : List UploadReq) (s : Store) (t : List (String × Status)),
      (∀ r ∈ reqs, r.user_id = uid ∧ r.requester = some uid ∧
        strEndsWith (strLower r.filename) ".pdf" = true ∧ r.size ≤ maxS ∧
        r.ioError = none) →
      b ∈ idxRead s uid → b ∈ idxRead (runUploads maxS ⟨s, [], t⟩ reqs).store uid := by
  intro reqs
  induction reqs with
  | nil =>
    intro s t hv hm
    simpa [runUploads] using hm
  | cons x rest ih =>
    intro s t hv hm
    obtain ⟨hx1, hx2, hx3, hx4, hx5⟩ := hv x (List.mem_cons_self x rest)
    have hstep := upload_pdf_serial_step maxS s t x (by rw [hx1]; exact hx2) hx3 hx4 hx5
    simp only [runUploads]
    rcases hWx : (upload_pdf maxS ⟨s, [], t⟩ x).2.1 with ⟨s1, f1, t1⟩
    have hf1 : f1 = [] := by
      have h := hstep.2
      rw [hWx] at h
      exact h
    subst hf1
    have hidx : idxRead s1 uid = idxRead s uid ++ [x.book_id] := by
      have h := hstep.1
      rw [hWx, hx1] at h
      exact h
    exact ih s1 t1 (fun r hrr => hv r (List.mem_cons_of_mem _ hrr))
      (by rw [hidx]; exact List.mem_append_left _ hm)

/-- C7 amended: when Submit calls are serialized (each completes before the
next begins), every submitted job id is present in the owner's User Job Index
afterwards.  The concurrent no-lost-update property of the claim fails: the
index update is a non-atomic read-modify-write, see the counterexample. -/
theorem C7_serialized_amended (maxS : Nat) (uid : String) :
    ∀ (reqs : List UploadReq) (s : Store) (t : List (String × Status)),
      (∀ r ∈ reqs, r.user_id = uid ∧ r.requester = some uid ∧
        strEndsWith (strLower r.filename) ".pdf" = true ∧ r.size ≤ maxS ∧
        r.ioError = none) →
      ∀ r ∈ reqs, r.book_id ∈ idxRead (runUploads maxS ⟨s, [], t⟩ reqs).store uid := by
  intro reqs
  induction reqs with
  | nil =>
    intro s t hv r hr
    simp at hr
  | cons x rest ih =>
    intro s t hv r hr
    obtain ⟨hx1, hx2, hx3, hx4, hx5⟩ := hv x (List.mem_cons_self x rest)
    have hstep := upload_pdf_serial_step maxS s t x (by rw [hx1]; exact hx2) hx3 hx4 hx5
    simp only [runUploads]
    rcases hWx : (upload_pdf maxS ⟨s, [], t⟩ x).2.1 with ⟨s1, f1, t1⟩
    have hf1 : f1 = [] := by
      have h := hstep.2
      rw [hWx] at h
      exact h
    subst hf1
    have hidx : idxRead s1 uid = idxRead s uid ++ [x.book_id] := by
      have h := hstep.1
      rw [hWx, hx1] at h
      exact h
    rcases List.mem_cons.mp hr with hrx | hrr
    · subst hrx
      exact runUploads_mem maxS uid r.book_id rest s1 t1
        (fun r2 hr2 => hv r2 (List.mem_cons_of_mem _ hr2))
        (by rw [hidx]; exact List.mem_append_right _ (List.mem_singleton.mpr rfl))
    · exact ih s1 t1 (fun r2 hr2 => hv r2 (List.mem_cons_of_mem _ hr2)) r hrr

/-- C10: a failure while appending an activity entry is swallowed inside
update_user_activity — the append touches only the activity log and never
propagates an error (it is total), and the surrounding operations (Submit,
Delete, Advance completion and Advance failure) report the same outcome
whatever the activity-log store calls do: the audit trail is best-effort. -/
theorem C10_activity_append_best_effort :
    (∀ (w : W) (uid ty : String) (d : List (String × String)) (now : Nat),
       (update_user_activity w uid ty d now).store.books = w.store.books ∧
       (update_user_activity w uid ty d now).store.userBooks = w.store.userBooks) ∧
    (∀ (maxS : Nat) (s : Store) (t : List (String × Status)) (r : UploadReq)
       (b1 b2 : Bool),
       r.requester = some r.user_id →
       strEndsWith (strLower r.filename) ".pdf" = true →
       r.size ≤ maxS → r.ioError = none →
       (upload_pdf maxS ⟨s, [false, false, false, b1, b2], t⟩ r).1 =
         .ok ⟨r.book_id, defaultTitle r, "uploaded"⟩) ∧
    (∀ (s : Store) (t : List (String × Status)) (id q : String) (now : Nat)
       (bd : JobRecord) (b1 b2 : Bool),
       alookup s.books id = some bd → bd.user_id = q → id ∈ idxRead s q →
       (delete_pdf ⟨s, [false, false, false, false, b1, b2], t⟩ id (some q) now).1 =
         .ok "Book deleted successfully") ∧
    (∀ (s : Store) (t : List (String × Status)) (id uid : String) (now : Nat)
       (bd : JobRecord) (b1 b2 : Bool),
       alookup s.books id = some bd →
       (process_pdf_to_audio
           ⟨s, [false, false, false, false, false, false, false, false, b1, b2], t⟩
           id uid now none).store.books =
         (process_pdf_to_audio ⟨s, [], t⟩ id uid now none).store.books) ∧
    (∀ (s : Store) (t : List (String × Status)) (id uid e : String) (now : Nat)
       (bd : JobRecord) (b1 b2 : Bool),
       alookup s.books id = some bd →
       (alookup (process_pdf_to_audio ⟨s, [false, false, false, false, b1, b2], t⟩
           id uid now (some (0, e))).store.books id).map
         (fun b => (b.conversion_status, b.error_message)) = some (.failed, some e)) := by
  refine ⟨?_, ?_, ?_, ?_, ?_⟩
  · intro w uid ty d now
    exact ⟨update_user_activity_books w uid ty d now,
           update_user_activity_userBooks w uid ty d now⟩
  · intro maxS s t r b1 b2 hreq hpdf hsize hio
    simp [upload_pdf, hreq, hpdf, hio, Nat.not_lt.mpr hsize, defaultTitle,
      mkUploadRecord]
  · intro s t id q now bd b1 b2 hb hq hmem
    simp only [idxRead] at hmem
    simp [delete_pdf, kvGetBook, kvGetUserBooks, kvSetUserBooks, kvDelBook,
      nextFault, hb, hq, hmem]
  · intro s t id uid now bd b1 b2 hb
    simp [process_pdf_to_audio, workPhase, progressSteps, kvGetBook, kvSetBook,
      nextFault, hb, update_user_activity_books]
  · intro s t id uid e now bd b1 b2 hb
    simp [process_pdf_to_audio, workPhase, progressSteps, kvGetBook, kvSetBook,
      nextFault, hb, update_user_activity_books, alookup_aset_self]

/-- C1 counterexample: the audio-delete operation — not Regenerate — moves a
job whose status is the terminal completed back to pending, refuting that
Regenerate is the only operation that re-arms a terminal state. -/
theorem C1_terminal_to_pending_counterexample :
    completedRecord.conversion_status = .completed ∧
    (alookup (delete_audio completedW "b1" (some "u1") 12).2.store.books "b1").map
      (fun b => b.conversion_status) = some .pending := by
  constructor
  · rfl
  · rfl

/-- Witness for C1 amended at concrete inputs. -/
theorem C1_status_forward_amended_witness :
    forwardChain (mkUploadRecord sampleReq).conversion_status
      ((process_pdf_to_audio
          ⟨⟨[("b1", mkUploadRecord sampleReq)], [("u1", ["b1"])], []⟩, [], []⟩
          "b1" "u1" 9 none).trace.map Prod.snd) = true ∧
    (alookup (delete_audio completedW "b1" (some "u1") 12).2.store.books "b1").map
      (fun b => b.conversion_status) = some .pending :=
  ⟨C1_status_forward_amended.1 ⟨[("b1", mkUploadRecord sampleReq)], [("u1", ["b1"])], []⟩
      "b1" "u1" 9 none (mkUploadRecord sampleReq) (by decide) rfl,
   C1_status_forward_amended.2.2 completedW.store [] "b1" "u1" 12 completedRecord
      (by decide) rfl⟩

/-- Witness for C2 at a concrete input: a failure after two progress
persists. -/
theorem C2_worker_failure_terminal_witness :
    ((alookup (process_pdf_to_audio
        ⟨⟨[("b1", mkUploadRecord sampleReq)], [("u1", ["b1"])], []⟩, [], []⟩
        "b1" "u1" 9 (some (2, "boom"))).store.books "b1").map
      (fun b => (b.conversion_status, b.error_message)) =
        some (.failed, some "boom")) ∧
    ((alookup (process_pdf_to_audio
        ⟨⟨[("b1", mkUploadRecord sampleReq)], [("u1", ["b1"])], []⟩, [], []⟩
        "b1" "u1" 9 (some (2, "boom"))).store.activityLogs "u1").getD []).getLast? =
      some ⟨"pdf_processing_error", 9, [("book_id", "b1"), ("error", "boom")],
            "python_backend"⟩ :=
  C2_worker_failure_terminal ⟨[("b1", mkUploadRecord sampleReq)], [("u1", ["b1"])], []⟩
    [] "b1" "u1" 9 2 "boom" (mkUploadRecord sampleReq) (by decide)

/-- C4 counterexample: regenerating a completed job leaves the output
artifact reference and duration populated (they are not cleared) and
schedules no reprocessing, refuting the clearing and re-scheduling parts of
the claim. -/
theorem C4_regenerate_counterexample :
    (alookup (regenerate_audio completedW "b1" (some "u1") 11).2.1.store.books "b1").map
      (fun b => (b.conversion_status, b.audio_url, b.duration)) =
      some (.pending, some "/api/v1/audio/stream/b1", some 3600) ∧
    (regenerate_audio completedW "b1" (some "u1") 11).2.2 = [] := by
  constructor
  · rfl
  · rfl

/-- Witness for C4 amended at concrete inputs. -/
theorem C4_regenerate_amended_witness :
    (regenerate_audio completedW "b1" (some "u2") 11).1 = .error .forbidden ∧
    (regenerate_audio completedW "b1" (some "u1") 11).1 = .ok ("b1", .pending) ∧
    alookup (regenerate_audio completedW "b1" (some "u1") 11).2.1.store.books "b1" =
      some { completedRecord with
               conversion_status := .pending
               progress := 0
               updated_at := 11
               regeneration_requested := true } :=
  ⟨(C4_regenerate_amended completedW.store [] "b1" "u2" 11 completedRecord
      (by decide)).1 (by decide),
   ((C4_regenerate_amended completedW.store [] "b1" "u1" 11 completedRecord
      (by decide)).2 rfl).1,
   ((C4_regenerate_amended completedW.store [] "b1" "u1" 11 completedRecord
      (by decide)).2 rfl).2.1⟩

/-- C7 counterexample: interleaving the two store accesses of the index
update of two concurrent submissions (both read the empty index, then both
write back their own one-element list) loses the first submission's entry:
the final index is just the second id. -/
theorem C7_lost_update_counterexample :
    idxRead (idxWrite (idxWrite ⟨[], [], []⟩ "u" (idxRead ⟨[], [], []⟩ "u") "a") "u"
      (idxRead ⟨[], [], []⟩ "u") "b") "u" = ["b"] ∧
    "a" ∉ idxRead (idxWrite (idxWrite ⟨[], [], []⟩ "u" (idxRead ⟨[], [], []⟩ "u") "a") "u"
      (idxRead ⟨[], [], []⟩ "u") "b") "u" := by
  constructor
  · rfl
  · decide

/-- Witness for C7 amended at a concrete input: two serialized uploads. -/
theorem C7_serialized_amended_witness :
    "b1" ∈ idxRead (runUploads maxPdfSizeDefault emptyW
      [sampleReq, { sampleReq with book_id := "b2" }]).store "u1" ∧
    "b2" ∈ idxRead (runUploads maxPdfSizeDefault emptyW
      [sampleReq, { sampleReq with book_id := "b2" }]).store "u1" :=
  ⟨C7_serialized_amended maxPdfSizeDefault "u1"
      [sampleReq, { sampleReq with book_id := "b2" }] ⟨[], [], []⟩ [] (by decide)
      sampleReq (by decide),
   C7_serialized_amended maxPdfSizeDefault "u1"
      [sampleReq, { sampleReq with book_id := "b2" }] ⟨[], [], []⟩ [] (by decide)
      { sampleReq with book_id := "b2" } (by decide)⟩

/-- Witness for C10 at a concrete input: Submit succeeds even when both
activity-log store calls fault. -/
theorem C10_activity_append_best_effort_witness :
    (upload_pdf maxPdfSizeDefault ⟨⟨[], [], []⟩, [false, false, false, true, true], []⟩
      sampleReq).1 = .ok ⟨"b1", "Book", "uploaded"⟩ :=
  C10_activity_append_best_effort.2.1 maxPdfSizeDefault ⟨[], [], []⟩ [] sampleReq
    true true rfl (by decide) (by decide) rfl

end Magdee
